import Mathlib

/-!
Shallow embedding of `cmake_swig_init.py` (class `CMakeGenerator`): paths as
pathlib.PurePosixPath values, the constructor and `generate` as functions over
an explicit filesystem and environment, and every side effect recorded as an
event.  Theorems at the end settle the specification claims.
-/

/-- Split a character list on the slashes (the segments of a POSIX path text). -/
def splitSlash : List Char → List (List Char)
  | [] => [[]]
  | c :: rest =>
    let r := splitSlash rest
    if c = '/' then [] :: r
    else
      match r with
      | [] => [[c]]
      | h :: t => (c :: h) :: t

/-- Model of pathlib.PurePosixPath: an absoluteness flag plus the parsed
components.  pathlib drops empty segments and "." segments when parsing and
keeps ".." segments. -/
structure PyPath where
  absolute : Bool
  components : List String
deriving DecidableEq

/-- Does the text start with a slash? -/
def startsWithSlash : List Char → Bool
  | [] => false
  | c :: _ => c = '/'

/-- `Path(s)`: parse a path string the way pathlib.PurePosixPath does. -/
def parsePath (s : String) : PyPath :=
  { absolute := startsWithSlash s.toList
    components := ((splitSlash s.toList).map List.asString).filter
      (fun c => !(c == "" || c == ".")) }

/-- `str(p)`: pathlib renders the empty relative path as ".". -/
def PyPath.str (p : PyPath) : String :=
  if p.absolute then "/" ++ String.intercalate "/" p.components
  else if p.components = [] then "." else String.intercalate "/" p.components

/-- `p.joinpath(q)`: pathlib discards `p` entirely when `q` is absolute. -/
def PyPath.joinpath (p q : PyPath) : PyPath :=
  if q.absolute then q
  else { absolute := p.absolute, components := p.components ++ q.components }

/-- `Path.parent`. -/
def PyPath.parent (p : PyPath) : PyPath :=
  { p with components := p.components.dropLast }

/-- `p.relative_to(base)`: `none` models the ValueError pathlib raises when
`base` is not a prefix of `p`. -/
def PyPath.relative_to (p base : PyPath) : Option PyPath :=
  if p.absolute = base.absolute ∧ base.components <+: p.components then
    Option.some { absolute := false, components := p.components.drop base.components.length }
  else Option.none

/-- Is the first list an initial segment of the second? -/
def leadsWith : List Char → List Char → Bool
  | [], _ => true
  | _ :: _, [] => false
  | a :: as, b :: bs => a == b && leadsWith as bs

/-- Does `hay` contain `needle` as a contiguous sublist? -/
def hasSub : List Char → List Char → Bool
  | [], needle => leadsWith needle []
  | h :: t, needle => leadsWith needle (h :: t) || hasSub t needle

/-- Python `needle in hay` on strings: substring containment. -/
def strContains (hay needle : String) : Bool := hasSub hay.toList needle.toList

/-- An error raised by the Python code: its class and message. -/
inductive PyErr
  | typeError (msg : String)
  | runtimeError (msg : String)
  | valueError (msg : String)
deriving DecidableEq

/-- The dynamic value passed as the `include` argument of the constructor.
`intArg` stands for a value of unsupported type (the spec's "e.g. a number"). -/
inductive IncludeArg
  | noneArg
  | strArg (s : String)
  | pathArg (p : PyPath)
  | listArg (xs : List String)
  | intArg (n : Int)
deriving DecidableEq

/-- Source lines 71-79: `include` normalization and type validation.  None
becomes `[]`, a string `[s]`, a Path `[str(p)]`, a list is accepted as is, and
anything else raises TypeError with the offending value interpolated. -/
def normalizeInclude : IncludeArg → Except PyErr (List String)
  | .noneArg => .ok []
  | .strArg s => .ok [s]
  | .pathArg p => .ok [p.str]
  | .listArg xs => .ok xs
  | .intArg n =>
      .error (.typeError
        ("`include` must be path or list of paths, not '" ++ toString n ++ "'"))

/-- The observable actions the generator performs, in program order. -/
inductive Event
  | mkdir (p : PyPath)
  | write (p : PyPath) (content : String)
  | fetch (url : String)
deriving DecidableEq

/-- A filesystem: the directories that exist, and the files as a list of
(path, content) pairs with the most recent write first. -/
structure FS where
  dirs : List PyPath
  files : List (PyPath × String)
deriving DecidableEq

def FS.empty : FS := { dirs := [], files := [] }

/-- Read a file: the most recent write to that path, if any. -/
def FS.read (fs : FS) (p : PyPath) : Option String :=
  (fs.files.find? (fun e => decide (e.1 = p))).map (fun e => e.2)

def FS.apply : FS → Event → FS
  | fs, .mkdir p => { fs with dirs := p :: fs.dirs }
  | fs, .write p c => { fs with files := (p, c) :: fs.files }
  | fs, .fetch _ => fs

def FS.applyAll (fs : FS) (evs : List Event) : FS := evs.foldl FS.apply fs

/-- `if not path.exists(): path.mkdir(parents=True)`. -/
def mkdirIfMissing (fs : FS) (p : PyPath) : FS × List Event :=
  if p ∈ fs.dirs then (fs, []) else ({ fs with dirs := p :: fs.dirs }, [Event.mkdir p])

/-- What the outside world supplies: whether `import numpy` succeeds, where
numpy's `__init__.py` lives, which filesystem paths exist for the existence
checks, and the UTF-8 decoded text a GET of the numpy.i URL returns. -/
structure Env where
  numpyInstalled : Bool
  numpyFile : PyPath
  existing : List PyPath
  fetched : String
deriving DecidableEq

/-- Source line 193: the canonical upstream URL of the numpy SWIG helper. -/
def numpyIUrl : String :=
  "https://raw.githubusercontent.com/numpy/numpy/main/tools/swig/numpy.i"

/-- Source lines 198-216: `_get_numpy_include`.  On failure the result is the
message of the raised Exception (the caller catches it and interpolates the
message into its own error). -/
def getNumpyInclude (env : Env) : Except String PyPath :=
  if env.numpyInstalled then
    let path := env.numpyFile.parent
    let includePath := (path.joinpath (parsePath "core")).joinpath (parsePath "include")
    if includePath ∈ env.existing then
      let arrayobjectPath :=
        (includePath.joinpath (parsePath "numpy")).joinpath (parsePath "arrayobject.h")
      if arrayobjectPath ∈ env.existing then .ok includePath
      else .error ("'" ++ arrayobjectPath.str ++ "' not found")
    else .error ("'" ++ includePath.str ++ "' does not exist")
  else .error "NumPy is not installed"

/-- Source lines 184-189: `_numpy_in_include`: some entry contains "numpy". -/
def numpyInInclude (inc : List String) : Bool :=
  inc.any (fun p => strContains p "numpy")

/-- Source lines 191-196: the body of `_get_numpy_i(out_dir)`: GET the URL and
decode the response as UTF-8.  The required parameter is unused by the body. -/
def getNumpyI (out_dir : PyPath) (env : Env) : String × List Event :=
  (env.fetched, [Event.fetch numpyIUrl])

/-- CPython's TypeError message for the argumentless call of `_get_numpy_i`. -/
def getNumpyIMissingArgMsg : String :=
  "CMakeGenerator._get_numpy_i() missing 1 required positional argument: 'out_dir'"

/-- Python call semantics for the static method `_get_numpy_i`, which has one
required positional parameter: a call with any other number of arguments
raises TypeError before the body runs. -/
def callGetNumpyI (env : Env) (args : List PyPath) : Except PyErr (String × List Event) :=
  match args with
  | [d] => .ok (getNumpyI d env)
  | _ => .error (.typeError getNumpyIMissingArgMsg)

/-- The state of a constructed CMakeGenerator object (the `self._*` fields). -/
structure CMakeGenerator where
  project_name : String
  project_version : String
  generate_interface_file : Bool
  top_level_dir : PyPath
  src_dir : PyPath
  swig_dir : PyPath
  use_numpy : Bool
  includePaths : List String  -- Python field self._include (keyword in Lean)
  cxx_std : String
  cxx_flags : String
  min_cmake_version : String
deriving DecidableEq

/-- The arguments of `CMakeGenerator.__init__`, with the Python defaults. -/
structure InitArgs where
  project_name : String
  project_version : String
  generate_interface_file : Bool := true
  top_level_dir : String := "."
  src_dir : String := "src"
  use_numpy : Bool := false
  includeArg : IncludeArg := .noneArg  -- Python parameter include (keyword in Lean)
  cxx_std : String := "17"
  cxx_flags : Option String := Option.none
  cmake_version : String := "3.18"
deriving DecidableEq

/-- The object state the constructor's assignments produce, `inc` being the
already-normalized include list.  `src_dir` and `swig_dir` are the joins of
source lines 61 and 65; `cxx_flags` is "" when the argument is None. -/
def CMakeGenerator.ofArgs (a : InitArgs) (inc : List String) : CMakeGenerator :=
  { project_name := a.project_name
    project_version := a.project_version
    generate_interface_file := a.generate_interface_file
    top_level_dir := parsePath a.top_level_dir
    src_dir := (parsePath a.top_level_dir).joinpath (parsePath a.src_dir)
    swig_dir := ((parsePath a.top_level_dir).joinpath (parsePath a.src_dir)).joinpath
      (parsePath "swig")
    use_numpy := a.use_numpy
    includePaths := inc
    cxx_std := a.cxx_std
    cxx_flags := (match a.cxx_flags with
      | Option.none => ""
      | Option.some f => f)
    min_cmake_version := a.cmake_version }

/-- Source lines 39-84: the constructor.  It mkdirs `top_level_dir`, then
`src_dir = top_level_dir/src_dir`, then `swig_dir = src_dir/"swig"` (each only
if missing, in that order), and only afterwards validates and normalizes the
`include` argument. -/
def CMakeGenerator.init (a : InitArgs) (fs : FS) :
    Except PyErr CMakeGenerator × FS × List Event :=
  let top := parsePath a.top_level_dir
  let s1 := mkdirIfMissing fs top
  let src := top.joinpath (parsePath a.src_dir)
  let s2 := mkdirIfMissing s1.1 src
  let swig := src.joinpath (parsePath "swig")
  let s3 := mkdirIfMissing s2.1 swig
  let evs := s1.2 ++ s2.2 ++ s3.2
  match normalizeInclude a.includeArg with
  | .error e => (.error e, s3.1, evs)
  | .ok inc => (.ok (CMakeGenerator.ofArgs a inc), s3.1, evs)

/-- `os.linesep` on the POSIX platforms the tool targets. -/
def linesep : String := "\n"

/-- Source lines 158-176: the lines of the top-level CMakeLists.txt.  The
Python list literal is missing a comma after the `""` entry before the
`add_subdirectory` f-string, so those two adjacent literals concatenate into a
single element (no blank line is emitted there). -/
def CMakeGenerator.topLevelLines (g : CMakeGenerator) (sourceSubdir : PyPath) : List String :=
  [ "cmake_minimum_required(VERSION " ++ g.min_cmake_version ++ ")",
    "project(" ++ g.project_name ++ ")",
    "",
    "set(CMAKE_CXX_STANDARD " ++ g.cxx_std ++ ")",
    "set(CMAKE_CXX_FLAGS \"${CMAKE_CXX_FLAGS}" ++ g.cxx_flags ++ "\")",
    "set(CMAKE_POSITION_INDEPENDENT_CODE ON)",
    "" ++ "add_subdirectory(" ++ sourceSubdir.str ++ ")" ]

/-- Source lines 158-176: `_generate_top_level_cmakelists`.  `relative_to`
raises ValueError when `src_dir` is not under `top_level_dir`. -/
def CMakeGenerator.generate_top_level_cmakelists (g : CMakeGenerator) :
    Except PyErr (List Event) :=
  match g.src_dir.relative_to g.top_level_dir with
  | Option.none =>
      .error (.valueError (g.src_dir.str ++ " is not in the subpath of " ++ g.top_level_dir.str))
  | Option.some rel =>
      .ok [Event.write (g.top_level_dir.joinpath (parsePath "CMakeLists.txt"))
            (String.intercalate linesep (g.topLevelLines rel))]

/-- Source line 106: `path_to_header = self._src_dir.joinpath(f"{name}.h")`. -/
def CMakeGenerator.path_to_header (g : CMakeGenerator) : PyPath :=
  g.src_dir.joinpath (parsePath (g.project_name ++ ".h"))

/-- Source lines 110-120: the numpy block inserted into the interface file. -/
def CMakeGenerator.numpy_text (g : CMakeGenerator) : List String :=
  [ "%\x7b",
    "#define SWIG_FILE_WITH_INIT",
    "#include \"" ++ g.project_name ++ ".h\"",
    "%\x7d",
    "%include \"numpy.i\"",
    "%init %\x7b",
    "import_array();",
    "%\x7d",
    "" ]

/-- Source lines 101-130: the lines of the interface file: the module line, a
blank, the numpy block when `use_numpy`, then the header include built from
`path_to_header` with a further literal ".h" appended. -/
def CMakeGenerator.interfaceLines (g : CMakeGenerator) : List String :=
  ([ "%module " ++ g.project_name, "" ] ++
    (if g.use_numpy then g.numpy_text else [])) ++
  [ "%include \"" ++ g.path_to_header.str ++ ".h\"" ]

/-- The single write `_generate_interface` performs:
`swig_dir/<project_name>.i` gets the joined interface lines. -/
def CMakeGenerator.interfaceEvent (g : CMakeGenerator) : Event :=
  Event.write (g.swig_dir.joinpath (parsePath (g.project_name ++ ".i")))
    (String.intercalate linesep g.interfaceLines)

/-- Source lines 132-156: `_generate_numpy`.  When no include entry contains
"numpy" it resolves the numpy include dir (wrapping any failure in a
RuntimeError with a remediation hint) and appends `str` of the resolved path
to the include list (the Python code appends the Path object itself; only its
text matters here).  It then evaluates `self._get_numpy_i()` — source line
152, a call with no argument — and would write the result to
`swig_dir/numpy.i` (lines 154-156). -/
def CMakeGenerator.generate_numpy (g : CMakeGenerator) (env : Env) :
    Except PyErr Unit × CMakeGenerator × List Event :=
  let resolved : Except PyErr CMakeGenerator :=
    if numpyInInclude g.includePaths then .ok g
    else
      match getNumpyInclude env with
      | .error err =>
          .error (.runtimeError
            ("Could not find numpy include path: " ++ err ++ ". " ++
             "Please provide path to numpy include dir with '--include' flag."))
      | .ok p => .ok { g with includePaths := g.includePaths ++ [p.str] }
  match resolved with
  | .error e => (.error e, g, [])
  | .ok g1 =>
      match callGetNumpyI env [] with
      | .error e => (.error e, g1, [])
      | .ok r =>
          (.ok (), g1, r.2 ++ [Event.write (g1.swig_dir.joinpath (parsePath "numpy.i")) r.1])

/-- Source lines 86-99: `generate`.  `_generate_src_cmakelists` and
`_generate_swig_cmakelists` are `pass` (no event).  The interface file is
written when `generate_interface_file`, then `_generate_numpy` runs when
`use_numpy`. -/
def CMakeGenerator.generate (g : CMakeGenerator) (env : Env) :
    Except PyErr Unit × CMakeGenerator × List Event :=
  match g.generate_top_level_cmakelists with
  | .error e => (.error e, g, [])
  | .ok ev0 =>
      let ev1 := ev0 ++ (if g.generate_interface_file then [g.interfaceEvent] else [])
      if g.use_numpy then
        match g.generate_numpy env with
        | (r, g2, ev2) => (r, g2, ev1 ++ ev2)
      else (.ok (), g, ev1)

/-- Construct, then generate, applying every event to the filesystem. -/
def runGenerator (a : InitArgs) (env : Env) (fs : FS) :
    Except PyErr Unit × FS × List Event :=
  match CMakeGenerator.init a fs with
  | (Except.error e, fs1, ev) => (.error e, fs1, ev)
  | (Except.ok g, fs1, ev) =>
      match g.generate env with
      | (r, _, ev2) => (r, fs1.applyAll ev2, ev ++ ev2)

/-- The path a write event targets, if it is a write. -/
def Event.writePath : Event → Option PyPath
  | .write p _ => Option.some p
  | _ => Option.none

/-- The paths written by a list of events, in order. -/
def writePaths (evs : List Event) : List PyPath := evs.filterMap Event.writePath

def Event.isFetch : Event → Bool
  | .fetch _ => true
  | _ => false

def Event.isMkdir : Event → Bool
  | .mkdir _ => true
  | _ => false

def Event.isWrite : Event → Bool
  | .write _ _ => true
  | _ => false

/-- `child` is a strict descendant directory of `parent`, read off the path
values: same absoluteness, and `parent`'s components a proper prefix. -/
def PyPath.IsSubdirOf (child parent : PyPath) : Prop :=
  child.absolute = parent.absolute ∧
    parent.components <+: child.components ∧ parent.components ≠ child.components

instance (child parent : PyPath) : Decidable (child.IsSubdirOf parent) := by
  unfold PyPath.IsSubdirOf; infer_instance

/-- Scenario inputs used by the concrete theorems. -/
def demoArgs : InitArgs := { project_name := "demo", project_version := "0.1" }

def scenarioCArgs : InitArgs :=
  { demoArgs with includeArg := IncludeArg.listArg ["/opt/numpy_include"], use_numpy := true }

def scenarioBArgs : InitArgs := { demoArgs with use_numpy := true }

/-- An environment with numpy absent but the network reachable. -/
def noNumpyEnv : Env :=
  { numpyInstalled := false
    numpyFile := parsePath "/usr/lib/python3/site-packages/numpy/__init__.py"
    existing := []
    fetched := "fetched numpy.i content" }

example : parsePath "src" = { absolute := false, components := ["src"] } := by decide
example : parsePath "." = { absolute := false, components := [] } := by decide
example : (parsePath "/opt/x").str = "/opt/x" := by decide
example : strContains "/opt/numpy_include" "numpy" = true := by decide
example : strContains "/opt/other" "numpy" = false := by decide

/-! ## Helper lemmas -/

theorem mkdirIfMissing_self_mem (fs : FS) (p : PyPath) :
    p ∈ (mkdirIfMissing fs p).1.dirs := by
  unfold mkdirIfMissing
  split
  · assumption
  · exact List.mem_cons_self _ _

theorem mkdirIfMissing_mono (fs : FS) (p q : PyPath) (h : q ∈ fs.dirs) :
    q ∈ (mkdirIfMissing fs p).1.dirs := by
  unfold mkdirIfMissing
  split
  · exact h
  · exact List.mem_cons_of_mem _ h

theorem mkdirIfMissing_files (fs : FS) (p : PyPath) :
    (mkdirIfMissing fs p).1.files = fs.files := by
  unfold mkdirIfMissing
  split <;> rfl

theorem mkdirIfMissing_events_mkdir (fs : FS) (p : PyPath) :
    ∀ e ∈ (mkdirIfMissing fs p).2, e.isMkdir = true := by
  unfold mkdirIfMissing
  split
  · intro e he; cases he
  · intro e he
    rcases List.mem_singleton.mp he with rfl
    rfl

theorem callGetNumpyI_noargs (env : Env) :
    callGetNumpyI env [] = Except.error (PyErr.typeError getNumpyIMissingArgMsg) := rfl

/-- In every run, `_generate_numpy` performs no event at all: either the
include resolution raises, or the argumentless `_get_numpy_i()` call raises
before the fetch and the write. -/
theorem gnumpy_events_nil (g : CMakeGenerator) (env : Env) :
    (g.generate_numpy env).2.2 = [] := by
  unfold CMakeGenerator.generate_numpy
  by_cases hni : numpyInInclude g.includePaths
  · simp [hni, callGetNumpyI_noargs]
  · rcases hgi : getNumpyInclude env with e | p <;> simp [hni, hgi, callGetNumpyI_noargs]

/-- When the include-resolution phase does not raise — an include entry
already mentions "numpy", or resolution succeeds — `_generate_numpy` raises
the TypeError of the argumentless `_get_numpy_i()` call. -/
theorem gnumpy_result_type_error (g : CMakeGenerator) (env : Env)
    (h : numpyInInclude g.includePaths = true ∨ ∃ p, getNumpyInclude env = Except.ok p) :
    (g.generate_numpy env).1 = Except.error (PyErr.typeError getNumpyIMissingArgMsg) := by
  unfold CMakeGenerator.generate_numpy
  by_cases hni : numpyInInclude g.includePaths
  · simp [hni, callGetNumpyI_noargs]
  · rcases h with h | ⟨p, hp⟩
    · exact absurd h hni
    · simp [hni, hp, callGetNumpyI_noargs]

/-- When resolution fails with message `err`, `_generate_numpy` raises the
wrapping RuntimeError. -/
theorem gnumpy_result_runtime_error (g : CMakeGenerator) (env : Env) (err : String)
    (hni : numpyInInclude g.includePaths = false)
    (hgi : getNumpyInclude env = Except.error err) :
    (g.generate_numpy env).1 = Except.error (PyErr.runtimeError
      ("Could not find numpy include path: " ++ err ++ ". " ++
       "Please provide path to numpy include dir with '--include' flag.")) := by
  unfold CMakeGenerator.generate_numpy
  simp [hni, hgi]

/-- When `src_dir` is relative to `top_level_dir`, generate's event list is
the top-level CMakeLists write, then the interface write when requested, then
whatever `_generate_numpy` performs (nothing) when `use_numpy`. -/
theorem generate_events_eq (g : CMakeGenerator) (env : Env) (rel : PyPath)
    (hrel : g.src_dir.relative_to g.top_level_dir = Option.some rel) :
    (g.generate env).2.2 =
      [Event.write (g.top_level_dir.joinpath (parsePath "CMakeLists.txt"))
          (String.intercalate linesep (g.topLevelLines rel))] ++
        (if g.generate_interface_file then [g.interfaceEvent] else []) := by
  unfold CMakeGenerator.generate CMakeGenerator.generate_top_level_cmakelists
  rw [hrel]
  by_cases hn : g.use_numpy
  · rcases hgn : g.generate_numpy env with ⟨r, g2, ev2⟩
    have : ev2 = [] := by
      have := gnumpy_events_nil g env
      rw [hgn] at this
      exact this
    subst this
    simp [hn, hgn]
  · simp [hn]

/-- When `src_dir` is not relative to `top_level_dir`, generate raises the
ValueError of `relative_to` having performed no event. -/
theorem generate_events_of_relative_to_none (g : CMakeGenerator) (env : Env)
    (hrel : g.src_dir.relative_to g.top_level_dir = Option.none) :
    (g.generate env).2.2 = [] := by
  unfold CMakeGenerator.generate CMakeGenerator.generate_top_level_cmakelists
  rw [hrel]

/-- Every event generate performs is a file write. -/
theorem generate_events_write (g : CMakeGenerator) (env : Env) :
    ∀ e ∈ (g.generate env).2.2, e.isWrite = true := by
  rcases hrel : g.src_dir.relative_to g.top_level_dir with _ | rel
  · rw [generate_events_of_relative_to_none g env hrel]
    intro e he; cases he
  · rw [generate_events_eq g env rel hrel]
    intro e he
    rcases List.mem_append.mp he with h | h
    · rcases List.mem_singleton.mp h with rfl; rfl
    · by_cases hf : g.generate_interface_file
      · simp [hf] at h
        rcases h with rfl
        rfl
      · simp [hf] at h

theorem writePaths_nil : writePaths [] = [] := rfl

theorem writePaths_cons (e : Event) (t : List Event) :
    writePaths (e :: t) =
      (match e.writePath with
        | Option.some p => p :: writePaths t
        | Option.none => writePaths t) := by
  unfold writePaths
  rw [List.filterMap_cons]
  rcases e.writePath with _ | p <;> rfl

/-- Replaying events does not touch a path no event writes. -/
theorem applyAll_read_not_written (evs : List Event) (fs : FS) (p : PyPath)
    (h : p ∉ writePaths evs) : (fs.applyAll evs).read p = fs.read p := by
  induction evs generalizing fs with
  | nil => rfl
  | cons e t ih =>
    have hstep : (FS.applyAll fs (e :: t)) = FS.applyAll (fs.apply e) t := rfl
    rw [hstep]
    have ht : p ∉ writePaths t := by
      intro hmem
      apply h
      rw [writePaths_cons]
      rcases e.writePath with _ | q
      · exact hmem
      · exact List.mem_cons_of_mem _ hmem
    rw [ih _ ht]
    cases e with
    | mkdir q => rfl
    | fetch u => rfl
    | write q c =>
      have hq : ¬(q = p) := by
        intro hqp
        apply h
        rw [writePaths_cons]
        subst hqp
        exact List.mem_cons_self _ _
      simp [FS.apply, FS.read, List.find?, hq]

/-- The content at a written path is determined by the events alone: replaying
the same events over two filesystems gives the same readback there. -/
theorem applyAll_read_written (evs : List Event) (fs fs2 : FS) (p : PyPath)
    (h : p ∈ writePaths evs) :
    (fs.applyAll evs).read p = (fs2.applyAll evs).read p := by
  induction evs generalizing fs fs2 with
  | nil => cases h
  | cons e t ih =>
    have hstep : ∀ f : FS, FS.applyAll f (e :: t) = FS.applyAll (f.apply e) t := fun _ => rfl
    rw [hstep fs, hstep fs2]
    by_cases hp : p ∈ writePaths t
    · exact ih _ _ hp
    · rw [applyAll_read_not_written t _ p hp, applyAll_read_not_written t _ p hp]
      cases e with
      | mkdir q =>
        rw [writePaths_cons] at h
        exact absurd h hp
      | fetch u =>
        rw [writePaths_cons] at h
        exact absurd h hp
      | write q c =>
        have hqp : q = p := by
          rw [writePaths_cons] at h
          rcases List.mem_cons.mp h with h1 | h1
          · exact h1.symm
          · exact absurd h1 hp
        subst hqp
        simp [FS.apply, FS.read, List.find?]

theorem init_fst (a : InitArgs) (fs : FS) :
    (CMakeGenerator.init a fs).1 =
      (match normalizeInclude a.includeArg with
        | Except.error e => Except.error e
        | Except.ok inc => Except.ok (CMakeGenerator.ofArgs a inc)) := by
  cases hni : normalizeInclude a.includeArg <;> simp [CMakeGenerator.init, hni]

/-- The constructed object does not depend on the starting filesystem. -/
theorem init_fst_indep (a : InitArgs) (fs fs2 : FS) :
    (CMakeGenerator.init a fs).1 = (CMakeGenerator.init a fs2).1 := by
  rw [init_fst, init_fst]

theorem init_fs (a : InitArgs) (fs : FS) :
    (CMakeGenerator.init a fs).2.1 =
      (mkdirIfMissing
        (mkdirIfMissing (mkdirIfMissing fs (parsePath a.top_level_dir)).1
          ((parsePath a.top_level_dir).joinpath (parsePath a.src_dir))).1
        (((parsePath a.top_level_dir).joinpath (parsePath a.src_dir)).joinpath
          (parsePath "swig"))).1 := by
  cases hni : normalizeInclude a.includeArg <;> simp [CMakeGenerator.init, hni]

theorem init_events (a : InitArgs) (fs : FS) :
    (CMakeGenerator.init a fs).2.2 =
      (mkdirIfMissing fs (parsePath a.top_level_dir)).2 ++
      (mkdirIfMissing (mkdirIfMissing fs (parsePath a.top_level_dir)).1
        ((parsePath a.top_level_dir).joinpath (parsePath a.src_dir))).2 ++
      (mkdirIfMissing
        (mkdirIfMissing (mkdirIfMissing fs (parsePath a.top_level_dir)).1
          ((parsePath a.top_level_dir).joinpath (parsePath a.src_dir))).1
        (((parsePath a.top_level_dir).joinpath (parsePath a.src_dir)).joinpath
          (parsePath "swig"))).2 := by
  cases hni : normalizeInclude a.includeArg <;> simp [CMakeGenerator.init, hni]

/-- Construction performs only mkdir events. -/
theorem init_events_mkdir (a : InitArgs) (fs : FS) :
    ∀ e ∈ (CMakeGenerator.init a fs).2.2, e.isMkdir = true := by
  rw [init_events]
  intro e he
  rcases List.mem_append.mp he with h1 | h1
  · rcases List.mem_append.mp h1 with h2 | h2
    · exact mkdirIfMissing_events_mkdir _ _ e h2
    · exact mkdirIfMissing_events_mkdir _ _ e h2
  · exact mkdirIfMissing_events_mkdir _ _ e h1

/-- Construction writes no file: the file table is untouched. -/
theorem init_files (a : InitArgs) (fs : FS) :
    (CMakeGenerator.init a fs).2.1.files = fs.files := by
  rw [init_fs, mkdirIfMissing_files, mkdirIfMissing_files, mkdirIfMissing_files]

theorem writePaths_eq_nil_of_mkdir (evs : List Event)
    (h : ∀ e ∈ evs, e.isMkdir = true) : writePaths evs = [] := by
  induction evs with
  | nil => rfl
  | cons e t ih =>
    rw [writePaths_cons]
    have he := h e (List.mem_cons_self _ _)
    cases e with
    | mkdir p => exact ih (fun x hx => h x (List.mem_cons_of_mem _ hx))
    | write p c => cases he
    | fetch u => cases he

/-- The three directories exist after construction, in both outcomes. -/
theorem init_dirs (a : InitArgs) (fs : FS) :
    parsePath a.top_level_dir ∈ (CMakeGenerator.init a fs).2.1.dirs ∧
    (parsePath a.top_level_dir).joinpath (parsePath a.src_dir) ∈
      (CMakeGenerator.init a fs).2.1.dirs ∧
    ((parsePath a.top_level_dir).joinpath (parsePath a.src_dir)).joinpath (parsePath "swig") ∈
      (CMakeGenerator.init a fs).2.1.dirs := by
  rw [init_fs]
  refine ⟨?_, ?_, ?_⟩
  · exact mkdirIfMissing_mono _ _ _ (mkdirIfMissing_mono _ _ _ (mkdirIfMissing_self_mem _ _))
  · exact mkdirIfMissing_mono _ _ _ (mkdirIfMissing_self_mem _ _)
  · exact mkdirIfMissing_self_mem _ _

theorem Event.isFetch_eq_false_of_isWrite (e : Event) (h : e.isWrite = true) :
    e.isFetch = false := by
  cases e with
  | mkdir p => cases h
  | write p c => rfl
  | fetch u => cases h

theorem getNumpyInclude_of_not_installed (env : Env) (h : env.numpyInstalled = false) :
    getNumpyInclude env = Except.error "NumPy is not installed" := by
  unfold getNumpyInclude
  rw [h]
  rfl

/-- Under `use_numpy`, generate's outcome is `_generate_numpy`'s outcome
(the earlier steps write files but do not raise once `relative_to` holds). -/
theorem generate_fst_of_use_numpy (g : CMakeGenerator) (env : Env) (rel : PyPath)
    (hrel : g.src_dir.relative_to g.top_level_dir = Option.some rel)
    (hu : g.use_numpy = true) :
    (g.generate env).1 = (g.generate_numpy env).1 := by
  unfold CMakeGenerator.generate CMakeGenerator.generate_top_level_cmakelists
  rw [hrel]
  rcases hgn : g.generate_numpy env with ⟨r, g2, ev2⟩
  simp [hu, hgn]

theorem run_of_init_ok (a : InitArgs) (env : Env) (fs : FS) (g : CMakeGenerator)
    (h : (CMakeGenerator.init a fs).1 = Except.ok g) :
    runGenerator a env fs =
      ((g.generate env).1,
        (CMakeGenerator.init a fs).2.1.applyAll (g.generate env).2.2,
        (CMakeGenerator.init a fs).2.2 ++ (g.generate env).2.2) := by
  unfold runGenerator
  rcases hini : CMakeGenerator.init a fs with ⟨r, fs1, ev⟩
  rw [hini] at h
  simp at h
  subst h
  rcases hg : g.generate env with ⟨r2, g2, ev2⟩
  simp [hg]

theorem joinpath_rel (p q : PyPath) (h : q.absolute = false) :
    p.joinpath q = { absolute := p.absolute, components := p.components ++ q.components } := by
  unfold PyPath.joinpath
  rw [h]
  rfl

theorem isSubdirOf_extend (p : PyPath) (cs : List String) (h : cs ≠ []) :
    PyPath.IsSubdirOf { absolute := p.absolute, components := p.components ++ cs } p := by
  refine ⟨rfl, List.prefix_append _ _, ?_⟩
  intro hc
  have hl := congrArg List.length hc
  rw [List.length_append] at hl
  have hz : cs.length = 0 := by omega
  exact h (List.length_eq_zero.mp hz)

/-! ## Concrete scenario objects -/

def demoGen : CMakeGenerator := CMakeGenerator.ofArgs demoArgs []

def scenarioCGen : CMakeGenerator := CMakeGenerator.ofArgs scenarioCArgs ["/opt/numpy_include"]

def scenarioBGen : CMakeGenerator := CMakeGenerator.ofArgs scenarioBArgs []

def noIfaceArgs : InitArgs := { demoArgs with generate_interface_file := false }

def noIfaceGen : CMakeGenerator := CMakeGenerator.ofArgs noIfaceArgs []

def absSrcArgs : InitArgs := { demoArgs with src_dir := "/elsewhere" }

def absSrcGen : CMakeGenerator := CMakeGenerator.ofArgs absSrcArgs []

def badIncludeArgs : InitArgs := { demoArgs with includeArg := IncludeArg.intArg 5 }

/-! ## Claim theorems -/

/-- C1: evaluated at Scenario C (project "demo", an includePaths entry
containing "numpy", useNumpy true, fetchable network content), `generate()`
does not perform the claimed fetch-and-write of srcDir/swig/numpy.i: the run
stops with the TypeError of the argumentless `self._get_numpy_i()` call, no
fetch event occurs, and src/swig/numpy.i does not exist afterwards.  This
pins down the code bug the claim's intended behavior runs into. -/
theorem c1_scenarioC_typeerror_no_numpy_i :
    (runGenerator scenarioCArgs noNumpyEnv FS.empty).1 =
      Except.error (PyErr.typeError getNumpyIMissingArgMsg) ∧
    (∀ e ∈ (runGenerator scenarioCArgs noNumpyEnv FS.empty).2.2, e.isFetch = false) ∧
    (runGenerator scenarioCArgs noNumpyEnv FS.empty).2.1.read
      (parsePath "src/swig/numpy.i") = Option.none := by
  refine ⟨rfl, by decide, rfl⟩

/-- C2: for any object with useNumpy, whenever `generate()` reaches the
content-retrieval step (the include-path resolution phase did not raise: an
entry already mentions "numpy", or resolution succeeds), the call
`self._get_numpy_i()` supplies no argument to a static method whose
positional parameter out_dir is required, so it raises TypeError before the
file write; and no run of the numpy step ever performs any event, so
srcDir/swig/numpy.i is never created by it. -/
theorem c2_get_numpy_i_arity_type_error (g : CMakeGenerator) (env : Env)
    (h : numpyInInclude g.includePaths = true ∨
      ∃ p, getNumpyInclude env = Except.ok p) :
    (g.generate_numpy env).1 = Except.error (PyErr.typeError getNumpyIMissingArgMsg) ∧
    ∀ (g2 : CMakeGenerator) (env2 : Env), (g2.generate_numpy env2).2.2 = [] :=
  ⟨gnumpy_result_type_error g env h, fun g2 env2 => gnumpy_events_nil g2 env2⟩

/-- C2 witness: the Scenario C object reaches content retrieval (its include
list mentions "numpy") and gets the TypeError; its numpy step performs no
event. -/
theorem c2_witness :
    (scenarioCGen.generate_numpy noNumpyEnv).1 =
      Except.error (PyErr.typeError getNumpyIMissingArgMsg) ∧
    (scenarioCGen.generate_numpy noNumpyEnv).2.2 = [] := by
  have h := c2_get_numpy_i_arity_type_error scenarioCGen noNumpyEnv (Or.inl (by decide))
  exact ⟨h.1, h.2 scenarioCGen noNumpyEnv⟩

/-- C3: with useNumpy true, numpy not importable and no include entry
containing "numpy", `generate()` fails with the single RuntimeError wrapping
the underlying cause and carrying the --include remediation hint; every event
of the run is a write (no network fetch is ever attempted), the numpy step
performs no event, and in the concrete Scenario B run src/swig/numpy.i does
not exist afterwards. -/
theorem c3_dependency_resolution_error (g : CMakeGenerator) (env : Env) (rel : PyPath)
    (hu : g.use_numpy = true) (hinc : numpyInInclude g.includePaths = false)
    (hnp : env.numpyInstalled = false)
    (hrel : g.src_dir.relative_to g.top_level_dir = Option.some rel) :
    (g.generate env).1 = Except.error (PyErr.runtimeError
      ("Could not find numpy include path: NumPy is not installed. " ++
       "Please provide path to numpy include dir with '--include' flag.")) ∧
    (∀ e ∈ (g.generate env).2.2, e.isFetch = false) ∧
    (g.generate_numpy env).2.2 = [] ∧
    (runGenerator scenarioBArgs noNumpyEnv FS.empty).2.1.read
      (parsePath "src/swig/numpy.i") = Option.none := by
  have hgi := getNumpyInclude_of_not_installed env hnp
  refine ⟨?_, ?_, gnumpy_events_nil g env, rfl⟩
  · rw [generate_fst_of_use_numpy g env rel hrel hu,
      gnumpy_result_runtime_error g env "NumPy is not installed" hinc hgi]
    have hs : ("Could not find numpy include path: " ++ "NumPy is not installed" ++ ". " ++
          "Please provide path to numpy include dir with '--include' flag.") =
        ("Could not find numpy include path: NumPy is not installed. " ++
          "Please provide path to numpy include dir with '--include' flag.") := by decide
    rw [hs]
  · intro e he
    exact Event.isFetch_eq_false_of_isWrite e (generate_events_write g env e he)

/-- C3 witness: Scenario B concretely (project "demo", useNumpy, numpy
absent, empty include list). -/
theorem c3_witness :
    (scenarioBGen.generate noNumpyEnv).1 = Except.error (PyErr.runtimeError
      ("Could not find numpy include path: NumPy is not installed. " ++
       "Please provide path to numpy include dir with '--include' flag.")) := by
  exact (c3_dependency_resolution_error scenarioBGen noNumpyEnv
    { absolute := false, components := ["src"] } rfl (by decide) rfl (by decide)).1

/-- C4: the last line of the interface document is the include directive
built by joining srcDir/<projectName>.h with a further literal ".h" (the
doubled extension); with project "demo" and defaults, the run writes
src/swig/demo.i whose content ends in exactly the line
%include "src/demo.h.h". -/
theorem c4_interface_last_line_doubled_extension :
    (∀ g : CMakeGenerator, g.interfaceLines.getLast? =
      Option.some ("%include \"" ++ g.path_to_header.str ++ ".h\"")) ∧
    (runGenerator demoArgs noNumpyEnv FS.empty).2.1.read (parsePath "src/swig/demo.i") =
      Option.some "%module demo\n\n%include \"src/demo.h.h\"" ∧
    demoGen.interfaceLines.getLast? = Option.some "%include \"src/demo.h.h\"" := by
  refine ⟨?_, rfl, by decide⟩
  intro g
  unfold CMakeGenerator.interfaceLines
  rw [List.getLast?_concat]

/-- C5: an include argument of unsupported type (a number) makes construction
fail with the configuration TypeError; construction performs no write event
and leaves the file table untouched (the only side effects before the check
are directory creations). -/
theorem c5_include_type_config_error (a : InitArgs) (fs : FS) (n : Int)
    (h : a.includeArg = IncludeArg.intArg n) :
    (CMakeGenerator.init a fs).1 = Except.error (PyErr.typeError
      ("`include` must be path or list of paths, not '" ++ toString n ++ "'")) ∧
    (∀ e ∈ (CMakeGenerator.init a fs).2.2, e.isWrite = false) ∧
    (CMakeGenerator.init a fs).2.1.files = fs.files := by
  refine ⟨?_, ?_, init_files a fs⟩
  · rw [init_fst, h]
    rfl
  · intro e he
    have hm := init_events_mkdir a fs e he
    cases e with
    | mkdir p => rfl
    | write p c => cases hm
    | fetch u => cases hm

/-- C5 witness: include = the number 5 on an empty filesystem. -/
theorem c5_witness :
    (CMakeGenerator.init badIncludeArgs FS.empty).1 = Except.error (PyErr.typeError
      ("`include` must be path or list of paths, not '" ++ toString (5 : Int) ++ "'")) ∧
    (CMakeGenerator.init badIncludeArgs FS.empty).2.1.files = FS.empty.files := by
  have h := c5_include_type_config_error badIncludeArgs FS.empty 5 rfl
  exact ⟨h.1, h.2.2⟩

/-- C6: when generateInterfaceFile is false the only path generate can write
is the top-level CMakeLists.txt (no interface file is created); the first
interface line is exactly "%module <projectName>"; with useNumpy the numpy
init block sits between the module line and the trailing header include; and
when generateInterfaceFile is true (and the source dir is relative to the top
dir) the interface write is among generate's events. -/
theorem c6_interface_file_gating (g : CMakeGenerator) (env : Env) :
    (g.generate_interface_file = false →
      ∀ q ∈ writePaths (g.generate env).2.2,
        q = g.top_level_dir.joinpath (parsePath "CMakeLists.txt")) ∧
    g.interfaceLines.head? = Option.some ("%module " ++ g.project_name) ∧
    (g.use_numpy = true →
      g.interfaceLines = (["%module " ++ g.project_name, ""] ++ g.numpy_text) ++
        ["%include \"" ++ g.path_to_header.str ++ ".h\""]) ∧
    (g.generate_interface_file = true →
      ∀ rel, g.src_dir.relative_to g.top_level_dir = Option.some rel →
        g.interfaceEvent ∈ (g.generate env).2.2) := by
  refine ⟨?_, ?_, ?_, ?_⟩
  · intro hf q hq
    rcases hrel : g.src_dir.relative_to g.top_level_dir with _ | rel
    · rw [generate_events_of_relative_to_none g env hrel] at hq
      cases hq
    · rw [generate_events_eq g env rel hrel, hf] at hq
      simp [writePaths, Event.writePath] at hq
      exact hq
  · cases hu : g.use_numpy <;> simp [CMakeGenerator.interfaceLines, hu]
  · intro hu
    simp [CMakeGenerator.interfaceLines, hu]
  · intro hf rel hrel
    rw [generate_events_eq g env rel hrel, hf]
    simp

theorem writePaths_append (l1 l2 : List Event) :
    writePaths (l1 ++ l2) = writePaths l1 ++ writePaths l2 := by
  unfold writePaths
  rw [List.filterMap_append]

theorem run_of_init_error (a : InitArgs) (env : Env) (fs : FS) (e : PyErr)
    (h : (CMakeGenerator.init a fs).1 = Except.error e) :
    runGenerator a env fs =
      (Except.error e, (CMakeGenerator.init a fs).2.1, (CMakeGenerator.init a fs).2.2) := by
  unfold runGenerator
  rcases hini : CMakeGenerator.init a fs with ⟨r, fs1, ev⟩
  rw [hini] at h
  simp at h
  subst h
  simp

/-- C7 counterexample: with src_dir = "/elsewhere" the constructor accepts
the configuration, yet srcDir is not a subdirectory of topLevelDir: pathlib's
joinpath discards the base entirely when the argument is absolute. -/
theorem c7_counterexample_absolute_src :
    (CMakeGenerator.init absSrcArgs FS.empty).1 = Except.ok absSrcGen ∧
    ¬ absSrcGen.src_dir.IsSubdirOf absSrcGen.top_level_dir := by
  exact ⟨rfl, by decide⟩

/-- C7 (amended): for every accepted configuration swigDir is a strict
subdirectory of srcDir; srcDir is a strict subdirectory of topLevelDir
whenever the src_dir argument parses to a nonempty relative path without ".."
components (otherwise it escapes the tree, see the counterexample); all three
directories exist in the filesystem construction returns; construction
performs only mkdir events and generate performs only write events, so the
directories are in place before any file is written. -/
theorem c7_directory_invariant (a : InitArgs) (fs : FS) (env : Env) (g : CMakeGenerator)
    (hg : (CMakeGenerator.init a fs).1 = Except.ok g) :
    g.swig_dir.IsSubdirOf g.src_dir ∧
    ((parsePath a.src_dir).absolute = false → (parsePath a.src_dir).components ≠ [] →
      ".." ∉ (parsePath a.src_dir).components →
      g.src_dir.IsSubdirOf g.top_level_dir) ∧
    g.top_level_dir ∈ (CMakeGenerator.init a fs).2.1.dirs ∧
    g.src_dir ∈ (CMakeGenerator.init a fs).2.1.dirs ∧
    g.swig_dir ∈ (CMakeGenerator.init a fs).2.1.dirs ∧
    (∀ e ∈ (CMakeGenerator.init a fs).2.2, e.isMkdir = true) ∧
    (∀ e ∈ (g.generate env).2.2, e.isWrite = true) := by
  have hfst := init_fst a fs
  rw [hg] at hfst
  rcases hni : normalizeInclude a.includeArg with e | inc
  · rw [hni] at hfst
    cases hfst
  · rw [hni] at hfst
    have hgeq : g = CMakeGenerator.ofArgs a inc := by
      injection hfst
    subst hgeq
    refine ⟨?_, ?_, (init_dirs a fs).1, (init_dirs a fs).2.1, (init_dirs a fs).2.2,
      init_events_mkdir a fs, generate_events_write _ env⟩
    · show PyPath.IsSubdirOf
        (((parsePath a.top_level_dir).joinpath (parsePath a.src_dir)).joinpath
          (parsePath "swig"))
        ((parsePath a.top_level_dir).joinpath (parsePath a.src_dir))
      rw [joinpath_rel _ (parsePath "swig") rfl]
      have hsw : (parsePath "swig").components = ["swig"] := by decide
      rw [hsw]
      exact isSubdirOf_extend _ ["swig"] (by decide)
    · intro habs hne _
      show PyPath.IsSubdirOf ((parsePath a.top_level_dir).joinpath (parsePath a.src_dir))
        (parsePath a.top_level_dir)
      rw [joinpath_rel _ _ habs]
      exact isSubdirOf_extend _ _ hne

/-- C7 witness: the default configuration (top dir ".", src "src"). -/
theorem c7_witness :
    demoGen.swig_dir.IsSubdirOf demoGen.src_dir ∧
    demoGen.src_dir.IsSubdirOf demoGen.top_level_dir := by
  have h := c7_directory_invariant demoArgs FS.empty noNumpyEnv demoGen rfl
  exact ⟨h.1, h.2.1 rfl (by decide) (by decide)⟩

/-- C8: a single string s, a single path object whose text is s, and the
one-element list [s] all normalize to the same constructed object (internal
include sequence [s]); a list is accepted unchanged, its order preserved. -/
theorem c8_include_normalization (a : InitArgs) (fs : FS) (s : String) (p : PyPath)
    (xs : List String) (hp : p.str = s) :
    (CMakeGenerator.init { a with includeArg := IncludeArg.strArg s } fs).1 =
      (CMakeGenerator.init { a with includeArg := IncludeArg.pathArg p } fs).1 ∧
    (CMakeGenerator.init { a with includeArg := IncludeArg.strArg s } fs).1 =
      (CMakeGenerator.init { a with includeArg := IncludeArg.listArg [s] } fs).1 ∧
    ∃ g, (CMakeGenerator.init { a with includeArg := IncludeArg.listArg xs } fs).1 =
      Except.ok g ∧ g.includePaths = xs := by
  refine ⟨?_, ?_, ?_⟩
  · rw [init_fst, init_fst]
    simp only [normalizeInclude, hp]
    rfl
  · rw [init_fst, init_fst]
    simp only [normalizeInclude]
    rfl
  · refine ⟨CMakeGenerator.ofArgs { a with includeArg := IncludeArg.listArg xs } xs, ?_, rfl⟩
    rw [init_fst]
    simp only [normalizeInclude]

/-- C8 witness: s = "src" as a string, as a path of the same text, and as a
one-element list. -/
theorem c8_witness :
    (CMakeGenerator.init { demoArgs with includeArg := IncludeArg.strArg "src" } FS.empty).1 =
      (CMakeGenerator.init { demoArgs with
        includeArg := IncludeArg.pathArg { absolute := false, components := ["src"] } }
        FS.empty).1 :=
  (c8_include_normalization demoArgs FS.empty "src"
    { absolute := false, components := ["src"] } ["a", "b"] (by decide)).1

/-- C9: with identical inputs and a stable environment, rerunning generate
against the filesystem the first run left produces the same write set, and
every path the run writes reads back with identical content after either
run (the outputs are byte-identical; writes overwrite unconditionally). -/
theorem c9_generate_idempotent (a : InitArgs) (env : Env) (fs0 : FS) (p : PyPath)
    (hp : p ∈ writePaths (runGenerator a env fs0).2.2) :
    writePaths (runGenerator a env (runGenerator a env fs0).2.1).2.2 =
      writePaths (runGenerator a env fs0).2.2 ∧
    (runGenerator a env (runGenerator a env fs0).2.1).2.1.read p =
      (runGenerator a env fs0).2.1.read p := by
  rcases hini : (CMakeGenerator.init a fs0).1 with e | g
  · rw [run_of_init_error a env fs0 e hini] at hp
    rw [writePaths_eq_nil_of_mkdir _ (init_events_mkdir a fs0)] at hp
    cases hp
  · have hrun1 := run_of_init_ok a env fs0 g hini
    have hini2 : (CMakeGenerator.init a (runGenerator a env fs0).2.1).1 = Except.ok g := by
      rw [init_fst]
      rw [init_fst] at hini
      exact hini
    have hrun2 := run_of_init_ok a env (runGenerator a env fs0).2.1 g hini2
    rw [hrun1] at hp
    simp only at hp
    rw [writePaths_append, writePaths_eq_nil_of_mkdir _ (init_events_mkdir a fs0),
      List.nil_append] at hp
    constructor
    · rw [hrun2, hrun1]
      simp only
      rw [writePaths_append, writePaths_append,
        writePaths_eq_nil_of_mkdir _ (init_events_mkdir a fs0),
        writePaths_eq_nil_of_mkdir _ (init_events_mkdir a _)]
    · rw [hrun2, hrun1]
      simp only
      exact applyAll_read_written _ _ _ p hp

/-- C9 witness: the default demo run; the top-level CMakeLists.txt path is
written and reads back identically after the second run. -/
theorem c9_witness :
    (runGenerator demoArgs noNumpyEnv
        (runGenerator demoArgs noNumpyEnv FS.empty).2.1).2.1.read
      (parsePath "CMakeLists.txt") =
    (runGenerator demoArgs noNumpyEnv FS.empty).2.1.read (parsePath "CMakeLists.txt") :=
  (c9_generate_idempotent demoArgs noNumpyEnv FS.empty (parsePath "CMakeLists.txt")
    (by decide)).2

/-- C10: the constructor creates topLevelDir, srcDir and srcDir/swig before
it validates the include argument, so a construction that fails with the
include-type TypeError still leaves all three directories present in the
filesystem it returns (no rollback). -/
theorem c10_dirs_survive_include_error (a : InitArgs) (fs : FS) (n : Int)
    (h : a.includeArg = IncludeArg.intArg n) :
    (∃ m, (CMakeGenerator.init a fs).1 = Except.error (PyErr.typeError m)) ∧
    parsePath a.top_level_dir ∈ (CMakeGenerator.init a fs).2.1.dirs ∧
    (parsePath a.top_level_dir).joinpath (parsePath a.src_dir) ∈
      (CMakeGenerator.init a fs).2.1.dirs ∧
    ((parsePath a.top_level_dir).joinpath (parsePath a.src_dir)).joinpath
      (parsePath "swig") ∈ (CMakeGenerator.init a fs).2.1.dirs := by
  refine ⟨⟨"`include` must be path or list of paths, not '" ++ toString n ++ "'", ?_⟩,
    (init_dirs a fs).1, (init_dirs a fs).2.1, (init_dirs a fs).2.2⟩
  rw [init_fst, h]
  rfl

/-- C10 witness: include = the number 5; the three default directories exist
after the failed construction. -/
theorem c10_witness :
    parsePath "." ∈ (CMakeGenerator.init badIncludeArgs FS.empty).2.1.dirs ∧
    (parsePath ".").joinpath (parsePath "src") ∈
      (CMakeGenerator.init badIncludeArgs FS.empty).2.1.dirs := by
  have h := c10_dirs_survive_include_error badIncludeArgs FS.empty 5 rfl
  exact ⟨h.2.1, h.2.2.1⟩
